import Mathlib

/-!
Verification of the conversation-session backend (`src/backend/server.py`)
of the digital_twin repository: a shallow embedding of the data model and
the operations (`get_memory_path`, `load_conversation`, `save_conversation`,
`call_bedrock`, the `/chat` and `/conversation/{id}` handlers), together
with theorems settling the specification claims about them.
-/

namespace DigitalTwin

/-- A persisted chat message, mirroring the `Message` pydantic model:
`role`, `content`, `timestamp`, all strings. -/
structure Message where
  role : String
  content : String
  timestamp : String
deriving DecidableEq, Repr

/-- Request body of `POST /chat`, mirroring `ChatRequest`:
`message: str`, `session_id: Optional[str] = None`. -/
structure ChatRequest where
  message : String
  session_id : Option String
deriving DecidableEq, Repr

/-- Response body of `POST /chat`, mirroring `ChatResponse`. -/
structure ChatResponse where
  response : String
  session_id : String
deriving DecidableEq, Repr

/-- The environment-derived configuration read at module load:
`USE_S3`, `S3_BUCKET`, `MEMORY_DIR`. -/
structure Config where
  USE_S3 : Bool
  S3_BUCKET : String
  MEMORY_DIR : String
deriving DecidableEq, Repr

/-- The default configuration from `os.getenv` defaults:
`USE_S3 = "false"`, `S3_BUCKET = ""`, `MEMORY_DIR = "../memory"`. -/
def defaultConfig : Config := { USE_S3 := false, S3_BUCKET := "", MEMORY_DIR := "../memory" }

/-- Embeds `get_memory_path`: the storage name of a session is `f"{session_id}.json"`. -/
def get_memory_path (session_id : String) : String := session_id ++ ".json"

/-- POSIX `os.path.isabs`: a path is absolute iff it begins with `'/'`. -/
def isAbsolutePath (s : String) : Bool :=
  match s.data with
  | [] => false
  | c :: _ => c = '/'

/-- Whether a path ends with the separator `'/'` (the POSIX join case that
skips inserting a separator). -/
def endsWithSep (s : String) : Bool :=
  match s.data.getLast? with
  | some c => c = '/'
  | none => false

/-- POSIX `os.path.join(a, b)` for the non-absolute second component:
`a == "" → b`; `a` ending in `'/'` → `a + b`; otherwise `a + "/" + b`. -/
def joinNonAbs (a b : String) : String :=
  if a = "" then b
  else if endsWithSep a then a ++ b
  else a ++ "/" ++ b

/-- POSIX `os.path.join(a, b)` for two components: an absolute `b`
replaces `a` entirely, otherwise the components are joined. -/
def os_path_join (a b : String) : String :=
  if isAbsolutePath b then b else joinNonAbs a b

/-- The key under which a session's log is stored: the S3 backend uses
`get_memory_path(session_id)` as the object key, the local backend uses
`os.path.join(MEMORY_DIR, get_memory_path(session_id))`. -/
def storage_key (cfg : Config) (session_id : String) : String :=
  if cfg.USE_S3 then get_memory_path session_id
  else os_path_join cfg.MEMORY_DIR (get_memory_path session_id)

/-- Split a character sequence at every `'/'` (the components of a POSIX
path, empty components included). -/
def splitSlash : List Char → List (List Char)
  | [] => [[]]
  | c :: rest =>
      if c = '/' then [] :: splitSlash rest
      else
        match splitSlash rest with
        | [] => [[c]]
        | g :: gs => (c :: g) :: gs

/-- One step of lexical POSIX path resolution: empty components and `"."`
are dropped, `".."` pops the previous component (staying at the root of an
absolute path, accumulating at the front of a relative one), anything else
is a real component. -/
def normStep (abs : Bool) (acc : List (List Char)) (comp : List Char) :
    List (List Char) :=
  if comp = [] ∨ comp = ['.'] then acc
  else if comp = ['.', '.'] then
    if abs then acc.dropLast
    else if acc = [] ∨ acc.getLast? = some ['.', '.'] then acc ++ [['.', '.']]
    else acc.dropLast
  else acc ++ [comp]

/-- Lexical POSIX resolution of a component list. -/
def normComps (abs : Bool) (groups : List (List Char)) : List (List Char) :=
  groups.foldl (normStep abs) []

/-- The canonical form of a POSIX path — whether it is absolute, plus its
resolved components. Two local paths reach the same file through `open()`
exactly when their canonical forms agree (lexical resolution: duplicate
slashes, `"."` and `".."` collapsed; symlinks are outside the model, and
relative paths are resolved against the one working directory of the
process, so they are comparable with each other but distinct from
absolute forms). -/
def canonicalPath (s : String) : Bool × List (List Char) :=
  (isAbsolutePath s, normComps (isAbsolutePath s) (splitSlash s.data))

/-- Whether two storage keys denote the same persisted record: S3 object
keys are opaque and compared verbatim, local file paths are compared by
the canonical form the operating system resolves them to. -/
def same_file (cfg : Config) (k1 k2 : String) : Bool :=
  if cfg.USE_S3 then k1 = k2 else canonicalPath k1 = canonicalPath k2

/-- The persistent store (local directory or S3 bucket), as a map from
storage key to the JSON document persisted there, modelled at the level of
the parsed message list (`json.dump` on save / `json.load` on load).
Entries are recorded under the unnormalized key the code computes; reads
compare keys with `same_file`, so aliasing local paths (for example
`"../memory/./x.json"` and `"../memory/x.json"`) denote one file. -/
abbrev Store := List (String × List Message)

/-- Look up the current document of a file (the most recent write to any
aliasing key wins, as POSIX resolution makes `open()` behave). -/
def fsRead (cfg : Config) : Store → String → Option (List Message)
  | [], _ => none
  | (k', v) :: rest, k => if same_file cfg k' k then some v else fsRead cfg rest k

/-- Write a document at a key, shadowing any previous document of the same
file (whole-file overwrite, as `open(file_path, "w")` / `put_object` do). -/
def fsWrite (st : Store) (k : String) (v : List Message) : Store :=
  (k, v) :: st

/-- Embeds `load_conversation`: read the session's document; a missing file
(`os.path.exists` false) or missing object (`NoSuchKey`) yields `[]`. -/
def load_conversation (cfg : Config) (st : Store) (session_id : String) : List Message :=
  match fsRead cfg st (storage_key cfg session_id) with
  | some msgs => msgs
  | none => []

/-- Embeds `save_conversation`: write the whole message list to the session's
storage key (`json.dump(messages, f, indent=2)` / `put_object`). -/
def save_conversation (cfg : Config) (session_id : String) (messages : List Message)
    (st : Store) : Store :=
  fsWrite st (storage_key cfg session_id) messages

/-- Python `json.dumps` escaping of one character inside a string literal
(`ensure_ascii` default: control characters and non-ASCII become
`\uXXXX`, astral code points become a surrogate pair). -/
def jsonEscapeChar (c : Char) : String :=
  if c = '"' then "\\\""
  else if c = '\\' then "\\\\"
  else if c = '\n' then "\\n"
  else if c = '\t' then "\\t"
  else if c = '\r' then "\\r"
  else if c.val = 8 then "\\b"
  else if c.val = 12 then "\\f"
  else if c.val < 0x20 ∨ c.val ≥ 0x7f then
    if c.val < 0x10000 then
      "\\u" ++ (Nat.toDigits 16 c.val.toNat).asString.leftpad 4 '0'
    else
      let v := c.val.toNat - 0x10000
      "\\u" ++ (Nat.toDigits 16 (0xD800 + v / 0x400)).asString.leftpad 4 '0'
        ++ "\\u" ++ (Nat.toDigits 16 (0xDC00 + v % 0x400)).asString.leftpad 4 '0'
  else String.singleton c

/-- Python `json.dumps` rendering of a string value. -/
def jsonEscapeString (s : String) : String :=
  "\"" ++ String.join (s.data.map jsonEscapeChar) ++ "\""

/-- Rendering of one message dict by `json.dumps(m, indent=2)`, at one level of
nesting, keys in insertion order `role`, `content`, `timestamp`. -/
def dumpsMessage (m : Message) : String :=
  "  \x7b\n    \"role\": " ++ jsonEscapeString m.role
    ++ ",\n    \"content\": " ++ jsonEscapeString m.content
    ++ ",\n    \"timestamp\": " ++ jsonEscapeString m.timestamp
    ++ "\n  \x7d"

/-- Embeds `json.dumps(messages, indent=2)`: the pretty-printed JSON array of the
message records in list order (the byte content `save_conversation`
writes). -/
def dumpsMessages : List Message → String
  | [] => "[]"
  | ms => "[\n" ++ String.intercalate ",\n" (ms.map dumpsMessage) ++ "\n]"

/-- The serialized bytes currently persisted for a session, if any:
the stored document rendered by `json.dumps(..., indent=2)`. -/
def fileBytes (cfg : Config) (st : Store) (session_id : String) : Option String :=
  (fsRead cfg st (storage_key cfg session_id)).map dumpsMessages

/-- Modelled from the spec: the fixed system instruction string returned by
`context.prompt()`; `context.py` is not among the provided source files, and
the spec describes it only as "a fixed system instruction string". Its
exact text is irrelevant to every claim, which concern only how it is
injected into the prompt. -/
def systemPromptText : String := "fixed system instruction"

/-- One entry of the Bedrock `converse` message list: a role and a list of
content blocks, each block a single text string (`[{"text": ...}]`). -/
structure BMessage where
  role : String
  content : List String
deriving DecidableEq, Repr

/-- The message list `call_bedrock` constructs: the system prompt formatted
as a leading user message, then `conversation[-20:]` converted entrywise,
then the new user message. -/
def build_bedrock_messages (conversation : List Message) (user_message : String) :
    List BMessage :=
  { role := "user", content := ["System: " ++ systemPromptText] }
    :: ((conversation.drop (conversation.length - 20)).map
          fun msg => { role := msg.role, content := [msg.content] })
    ++ [{ role := "user", content := [user_message] }]

/-- A FastAPI `HTTPException`: status code and detail string. -/
structure HTTPException where
  status_code : Nat
  detail : String
deriving DecidableEq, Repr

/-- The outcome of one `bedrock_client.converse` invocation: either the
extracted response text, or a `botocore.exceptions.ClientError` carrying
its error code and its `str(e)` rendering. -/
inductive BedrockOutcome where
  | success (text : String)
  | clientError (code : String) (msg : String)
deriving DecidableEq, Repr

/-- The provider is an external oracle: the outcome of the n-th `converse`
call, as a function of the message list sent. -/
abbrev BedrockOracle := Nat → List BMessage → BedrockOutcome

/-- The `except ClientError` arm of `call_bedrock`: `ValidationException`
becomes 400, `AccessDeniedException` becomes 403, anything else becomes
500 with `f"Bedrock error: {str(e)}"`. -/
def map_client_error (code msg : String) : HTTPException :=
  if code = "ValidationException" then
    { status_code := 400, detail := "Invalid message format for Bedrock" }
  else if code = "AccessDeniedException" then
    { status_code := 403, detail := "Access denied to Bedrock model" }
  else
    { status_code := 500, detail := "Bedrock error: " ++ msg }

/-- Embeds `call_bedrock`: build the message list, invoke `converse` once (the
call counter advances by exactly one), and either return the response text
or map the `ClientError` to an `HTTPException`. -/
def call_bedrock (bedrock : BedrockOracle) (i : Nat) (conversation : List Message)
    (user_message : String) : Except HTTPException String × Nat :=
  match bedrock i (build_bedrock_messages conversation user_message) with
  | .success text => (.ok text, i + 1)
  | .clientError code msg => (.error (map_client_error code msg), i + 1)

/-- Python's `x or y` for an optional string: `None` and the empty string
are falsy, so `request.session_id or str(uuid.uuid4())` falls through to
the generated id on both. -/
def py_str_or (x : Option String) (y : String) : String :=
  match x with
  | none => y
  | some s => if s = "" then y else s

deriving instance DecidableEq for Except

/-- The full observable outcome of one `POST /chat` request: the HTTP
result, the store afterwards, and the `converse` call counter afterwards. -/
structure ChatOutcome where
  result : Except HTTPException ChatResponse
  store : Store
  calls : Nat
deriving DecidableEq, Repr

/-- The `/chat` handler: resolve the session id (caller value, or the
fresh `uuid.uuid4()` when falsy), load the conversation, call Bedrock on
it, and on success append the user and assistant turns stamped with the
two successive `datetime.now().isoformat()` readings and save; an
`HTTPException` from `call_bedrock` propagates unchanged with nothing
saved. `clock n` is the n-th wall-clock reading of the request. -/
def chat (cfg : Config) (bedrock : BedrockOracle) (clock : Nat → String)
    (fresh_uuid : String) (st : Store) (i : Nat) (req : ChatRequest) : ChatOutcome :=
  let session_id := py_str_or req.session_id fresh_uuid
  let conversation := load_conversation cfg st session_id
  match call_bedrock bedrock i conversation req.message with
  | (.error e, i') => { result := .error e, store := st, calls := i' }
  | (.ok assistant_response, i') =>
      let conversation := conversation
        ++ [{ role := "user", content := req.message, timestamp := clock 0 }]
        ++ [{ role := "assistant", content := assistant_response, timestamp := clock 1 }]
      { result := .ok { response := assistant_response, session_id := session_id }
        store := save_conversation cfg session_id conversation st
        calls := i' }

/-- Response body of `GET /conversation/{session_id}`. -/
structure ConversationView where
  session_id : String
  messages : List Message
deriving DecidableEq, Repr

/-- The `/conversation/{session_id}` handler: load and return the
persisted log verbatim; a missing session yields an empty list, a
success response, never 404. -/
def get_conversation (cfg : Config) (st : Store) (session_id : String) : ConversationView :=
  { session_id := session_id, messages := load_conversation cfg st session_id }

/-! ## Store helper lemmas -/

theorem same_file_refl (cfg : Config) (k : String) : same_file cfg k k = true := by
  unfold same_file
  cases cfg.USE_S3 <;> simp

theorem fsRead_fsWrite_self (cfg : Config) (st : Store) (k : String) (v : List Message) :
    fsRead cfg (fsWrite st k v) k = some v := by
  simp [fsRead, fsWrite, same_file_refl]

theorem fsRead_fsWrite_other (cfg : Config) (st : Store) (k k' : String) (v : List Message)
    (h : same_file cfg k k' = false) : fsRead cfg (fsWrite st k v) k' = fsRead cfg st k' := by
  simp [fsRead, fsWrite, h]

theorem load_save_self (cfg : Config) (session_id : String) (messages : List Message)
    (st : Store) :
    load_conversation cfg (save_conversation cfg session_id messages st) session_id
      = messages := by
  simp [load_conversation, save_conversation, fsRead_fsWrite_self]

/-! ## Chat evaluation lemmas -/

theorem chat_of_success (cfg : Config) (bedrock : BedrockOracle) (clock : Nat → String)
    (fresh_uuid : String) (st : Store) (i : Nat) (req : ChatRequest) (resp : String)
    (hok : bedrock i (build_bedrock_messages
        (load_conversation cfg st (py_str_or req.session_id fresh_uuid)) req.message)
      = .success resp) :
    chat cfg bedrock clock fresh_uuid st i req =
      { result := .ok { response := resp
                        session_id := py_str_or req.session_id fresh_uuid }
        store := save_conversation cfg (py_str_or req.session_id fresh_uuid)
          (load_conversation cfg st (py_str_or req.session_id fresh_uuid)
            ++ [{ role := "user", content := req.message, timestamp := clock 0 }]
            ++ [{ role := "assistant", content := resp, timestamp := clock 1 }]) st
        calls := i + 1 } := by
  simp only [chat, call_bedrock]
  rw [hok]

theorem chat_of_client_error (cfg : Config) (bedrock : BedrockOracle) (clock : Nat → String)
    (fresh_uuid : String) (st : Store) (i : Nat) (req : ChatRequest) (code msg : String)
    (hfail : bedrock i (build_bedrock_messages
        (load_conversation cfg st (py_str_or req.session_id fresh_uuid)) req.message)
      = .clientError code msg) :
    chat cfg bedrock clock fresh_uuid st i req =
      { result := .error (map_client_error code msg), store := st, calls := i + 1 } := by
  simp only [chat, call_bedrock]
  rw [hfail]

/-! ## Claim theorems -/

/-- C10: the system instruction is not sent under a dedicated system role:
the first entry of every constructed inference message list is a message
with role `"user"` whose single text block is the literal `"System: "`
followed by the fixed instruction string, regardless of history length. -/
theorem system_instruction_as_user_entry (conversation : List Message)
    (user_message : String) :
    (build_bedrock_messages conversation user_message).head?
      = some { role := "user", content := ["System: " ++ systemPromptText] } := rfl

/-- C7: store round-trip: on either backend, loading a session right after
saving a message sequence for it returns exactly the saved sequence. -/
theorem store_round_trip (cfg : Config) (session_id : String)
    (messages : List Message) (st : Store) :
    load_conversation cfg (save_conversation cfg session_id messages st) session_id
      = messages :=
  load_save_self cfg session_id messages st

/-- C4: a missing session is never an error: when no record exists for the
session id in the selected backend, `load_conversation` returns the empty
list and `GET /conversation/{id}` returns `{session_id: id, messages: []}`
(the handler is total — it never raises a 404). -/
theorem missing_session_not_error (cfg : Config) (st : Store) (session_id : String)
    (h : fsRead cfg st (storage_key cfg session_id) = none) :
    load_conversation cfg st session_id = []
    ∧ get_conversation cfg st session_id = { session_id := session_id, messages := [] } := by
  refine ⟨?_, ?_⟩ <;> simp [load_conversation, get_conversation, h]

/-- Witness for C4 at a concrete input: the empty store has no record for
session `"never-seen"`, and the handler returns the empty view. -/
theorem missing_session_not_error_witness :
    fsRead defaultConfig ([] : Store) (storage_key defaultConfig "never-seen") = none
    ∧ (load_conversation defaultConfig [] "never-seen" = []
       ∧ get_conversation defaultConfig [] "never-seen"
           = { session_id := "never-seen", messages := [] }) :=
  ⟨rfl, missing_session_not_error defaultConfig [] "never-seen" rfl⟩

/-- C5: inference failure mapping: a `ValidationException` from the
provider surfaces as status 400, an `AccessDeniedException` as 403, and
any other provider error as 500 carrying the diagnostic
`"Bedrock error: " ++ str(e)`; the call counter advances by exactly one
and the outcome depends only on that single invocation (no retry). -/
theorem bedrock_error_mapping (bedrock : BedrockOracle) (i : Nat)
    (conversation : List Message) (user_message : String) (code msg : String)
    (h : bedrock i (build_bedrock_messages conversation user_message)
      = .clientError code msg) :
    call_bedrock bedrock i conversation user_message
      = (.error (map_client_error code msg), i + 1)
    ∧ (map_client_error code msg).status_code
        = (if code = "ValidationException" then 400
           else if code = "AccessDeniedException" then 403 else 500)
    ∧ (code ≠ "ValidationException" → code ≠ "AccessDeniedException" →
        (map_client_error code msg).detail = "Bedrock error: " ++ msg)
    ∧ (∀ bedrock2 : BedrockOracle, bedrock2 i = bedrock i →
        call_bedrock bedrock2 i conversation user_message
          = call_bedrock bedrock i conversation user_message) := by
  refine ⟨?_, ?_, ?_, ?_⟩
  · simp [call_bedrock, h]
  · simp only [map_client_error]
    split_ifs <;> rfl
  · intro h1 h2
    simp [map_client_error, h1, h2]
  · intro bedrock2 hb
    simp [call_bedrock, hb]

/-- Witness for C5 at a concrete input: a `ThrottlingException` (neither
validation nor access-denied) surfaces as a 500 with the diagnostic
detail, consuming exactly one provider call. -/
theorem bedrock_error_mapping_witness :
    call_bedrock (fun _ _ => .clientError "ThrottlingException" "rate exceeded") 0 [] "hi"
      = (.error { status_code := 500, detail := "Bedrock error: rate exceeded" }, 1) :=
  ((bedrock_error_mapping (fun _ _ => .clientError "ThrottlingException" "rate exceeded")
    0 [] "hi" "ThrottlingException" "rate exceeded" rfl).1).trans (by decide)

/-- C9: persisted layout: the storage key of a session is
`{session_id}.json`, placed under the configured root directory by the
local backend and used as the object key directly by the S3 backend; a
save persists exactly the message list in order, whose serialized bytes
are the pretty-printed (`indent=2`) JSON array of the records, and a
second save for the same session fully overwrites the first. -/
theorem persisted_layout (cfg : Config) (session_id : String)
    (messages : List Message) (st : Store) :
    storage_key cfg session_id
      = (if cfg.USE_S3 then session_id ++ ".json"
         else os_path_join cfg.MEMORY_DIR (session_id ++ ".json"))
    ∧ fsRead cfg (save_conversation cfg session_id messages st) (storage_key cfg session_id)
        = some messages
    ∧ fileBytes cfg (save_conversation cfg session_id messages st) session_id
        = some (dumpsMessages messages)
    ∧ (∀ prior : List Message,
        fsRead cfg (save_conversation cfg session_id messages
            (save_conversation cfg session_id prior st)) (storage_key cfg session_id)
          = some messages) := by
  refine ⟨rfl, fsRead_fsWrite_self .., ?_, fun prior => fsRead_fsWrite_self ..⟩
  simp [fileBytes, save_conversation, fsRead_fsWrite_self]

/-- C1: atomic failure of a chat turn: when the inference call raises a
`ClientError`, the `/chat` handler performs no save — the store is
untouched, so both the stored log and its serialized bytes for every
session are identical before and after the failed call — and the mapped
`HTTPException` propagates to the caller unchanged. -/
theorem chat_failure_atomic (cfg : Config) (bedrock : BedrockOracle)
    (clock : Nat → String) (fresh_uuid : String) (st : Store) (i : Nat)
    (req : ChatRequest) (code msg : String)
    (hfail : bedrock i (build_bedrock_messages
        (load_conversation cfg st (py_str_or req.session_id fresh_uuid)) req.message)
      = .clientError code msg) :
    (chat cfg bedrock clock fresh_uuid st i req).store = st
    ∧ (chat cfg bedrock clock fresh_uuid st i req).result
        = .error (map_client_error code msg)
    ∧ (∀ s : String, fileBytes cfg (chat cfg bedrock clock fresh_uuid st i req).store s
        = fileBytes cfg st s)
    ∧ (∀ s : String,
        load_conversation cfg (chat cfg bedrock clock fresh_uuid st i req).store s
          = load_conversation cfg st s) := by
  rw [chat_of_client_error cfg bedrock clock fresh_uuid st i req code msg hfail]
  exact ⟨rfl, rfl, fun s => rfl, fun s => rfl⟩

/-- Witness for C1 at a concrete input: a validation failure on a session
holding one prior message leaves the store exactly as it was and returns
the 400 error. -/
theorem chat_failure_atomic_witness :
    (fun _ _ => BedrockOutcome.clientError "ValidationException" "bad" : BedrockOracle) 0
      (build_bedrock_messages
        (load_conversation defaultConfig
          [(storage_key defaultConfig "s1", [{ role := "user", content := "old", timestamp := "t0" }])]
          (py_str_or (some "s1") "fresh")) "hi")
      = .clientError "ValidationException" "bad"
    ∧ (chat defaultConfig (fun _ _ => .clientError "ValidationException" "bad")
        (fun _ => "t") "fresh"
        [(storage_key defaultConfig "s1", [{ role := "user", content := "old", timestamp := "t0" }])]
        0 { message := "hi", session_id := some "s1" }).store
      = [(storage_key defaultConfig "s1", [{ role := "user", content := "old", timestamp := "t0" }])] :=
  ⟨rfl,
   (chat_failure_atomic defaultConfig (fun _ _ => .clientError "ValidationException" "bad")
      (fun _ => "t") "fresh"
      [(storage_key defaultConfig "s1", [{ role := "user", content := "old", timestamp := "t0" }])]
      0 { message := "hi", session_id := some "s1" } "ValidationException" "bad" rfl).1⟩

/-- C3: turn append semantics: when the inference call succeeds, the
handler appends exactly the pair `{user, request message}` then
`{assistant, returned response}` — stamped with the two successive clock
readings, the user's not later than the assistant's when the wall clock
is non-decreasing — to the loaded log and saves; the prior messages are
preserved unchanged as a prefix, and the response carries the assistant
text. -/
theorem chat_turn_append (cfg : Config) (bedrock : BedrockOracle) (clock : Nat → String)
    (fresh_uuid : String) (st : Store) (i : Nat) (req : ChatRequest)
    (sid : String) (hsid : sid = py_str_or req.session_id fresh_uuid) (resp : String)
    (hok : bedrock i (build_bedrock_messages (load_conversation cfg st sid) req.message)
      = .success resp)
    (hclock : clock 0 ≤ clock 1) :
    (chat cfg bedrock clock fresh_uuid st i req).result
      = .ok { response := resp, session_id := sid }
    ∧ load_conversation cfg (chat cfg bedrock clock fresh_uuid st i req).store sid
        = load_conversation cfg st sid
          ++ [{ role := "user", content := req.message, timestamp := clock 0 },
              { role := "assistant", content := resp, timestamp := clock 1 }]
    ∧ (Message.timestamp { role := "user", content := req.message, timestamp := clock 0 }
        ≤ Message.timestamp { role := "assistant", content := resp, timestamp := clock 1 }) := by
  subst hsid
  rw [chat_of_success cfg bedrock clock fresh_uuid st i req resp hok]
  refine ⟨rfl, ?_, hclock⟩
  rw [load_save_self]
  simp

/-- Witness for C3 at a concrete input: a successful turn on a fresh
session appends the user/assistant pair with equal (hence non-decreasing)
timestamps from a constant clock. -/
theorem chat_turn_append_witness :
    (fun _ _ => BedrockOutcome.success "ok" : BedrockOracle) 0
      (build_bedrock_messages (load_conversation defaultConfig [] "s1") "hi")
      = .success "ok"
    ∧ ((fun _ : Nat => "2024-01-01T00:00:00") 0 : String) ≤ (fun _ : Nat => "2024-01-01T00:00:00") 1
    ∧ (chat defaultConfig (fun _ _ => .success "ok") (fun _ => "2024-01-01T00:00:00")
        "fresh" [] 0 { message := "hi", session_id := some "s1" }).result
      = .ok { response := "ok", session_id := "s1" } :=
  ⟨rfl, le_refl _,
   (chat_turn_append defaultConfig (fun _ _ => .success "ok")
      (fun _ => "2024-01-01T00:00:00") "fresh" [] 0
      { message := "hi", session_id := some "s1" } "s1" (by decide) "ok" rfl (le_refl _)).1⟩

/-- C2: context-window truncation: the inference message list is exactly
the system-instruction entry, the last `min(|history|, 20)` stored
messages in order (a suffix of the history), and the new user message; in
particular a 25-message history presents exactly its most recent 20, while
after a successful turn the persisted log holds all 25 plus the 2 new
messages (27 total). -/
theorem chat_context_window (cfg : Config) (bedrock : BedrockOracle) (clock : Nat → String)
    (fresh_uuid : String) (st : Store) (i : Nat) (req : ChatRequest)
    (sid : String) (hsid : sid = py_str_or req.session_id fresh_uuid)
    (conv : List Message) (hconv : conv = load_conversation cfg st sid)
    (resp : String) (h25 : conv.length = 25)
    (hok : bedrock i (build_bedrock_messages conv req.message) = .success resp) :
    (∀ (c : List Message) (m : String),
        build_bedrock_messages c m
          = { role := "user", content := ["System: " ++ systemPromptText] }
              :: ((c.drop (c.length - 20)).map
                    fun msg => { role := msg.role, content := [msg.content] })
              ++ [{ role := "user", content := [m] }]
        ∧ (c.drop (c.length - 20)).length = min c.length 20
        ∧ c.take (c.length - 20) ++ c.drop (c.length - 20) = c)
    ∧ conv.drop (conv.length - 20) = conv.drop 5
    ∧ (conv.drop 5).length = 20
    ∧ load_conversation cfg (chat cfg bedrock clock fresh_uuid st i req).store sid
        = conv ++ [{ role := "user", content := req.message, timestamp := clock 0 },
                   { role := "assistant", content := resp, timestamp := clock 1 }]
    ∧ (load_conversation cfg (chat cfg bedrock clock fresh_uuid st i req).store sid).length
        = 27 := by
  subst hsid
  have hgen : ∀ (c : List Message) (m : String),
      build_bedrock_messages c m
        = { role := "user", content := ["System: " ++ systemPromptText] }
            :: ((c.drop (c.length - 20)).map
                  fun msg => { role := msg.role, content := [msg.content] })
            ++ [{ role := "user", content := [m] }]
      ∧ (c.drop (c.length - 20)).length = min c.length 20
      ∧ c.take (c.length - 20) ++ c.drop (c.length - 20) = c := by
    intro c m
    refine ⟨rfl, ?_, List.take_append_drop _ _⟩
    simp only [List.length_drop]
    omega
  have hload : load_conversation cfg (chat cfg bedrock clock fresh_uuid st i req).store
      (py_str_or req.session_id fresh_uuid)
      = conv ++ [{ role := "user", content := req.message, timestamp := clock 0 },
                 { role := "assistant", content := resp, timestamp := clock 1 }] := by
    rw [chat_of_success cfg bedrock clock fresh_uuid st i req resp (hconv ▸ hok)]
    rw [load_save_self, ← hconv]
    simp
  refine ⟨hgen, ?_, ?_, hload, ?_⟩
  · rw [h25]
  · simp [List.length_drop, h25]
  · rw [hload]
    simp [h25]

/-- Witness for C2 at a concrete input: a session holding 25 stored
messages, on a successful chat call, has its window equal to the last 20
of them and a 27-message persisted log afterwards. -/
theorem chat_context_window_witness :
    ((List.replicate 25 ({ role := "user", content := "m", timestamp := "t" } : Message)).length = 25)
    ∧ ((List.replicate 25 ({ role := "user", content := "m", timestamp := "t" } : Message)).drop 5).length = 20
    ∧ (load_conversation defaultConfig
        (chat defaultConfig (fun _ _ => .success "ok") (fun _ => "t") "fresh"
          [(storage_key defaultConfig "s25",
            List.replicate 25 { role := "user", content := "m", timestamp := "t" })]
          0 { message := "hi", session_id := some "s25" }).store "s25").length = 27 :=
  ⟨by decide,
   (chat_context_window defaultConfig (fun _ _ => .success "ok") (fun _ => "t") "fresh"
      [(storage_key defaultConfig "s25",
        List.replicate 25 { role := "user", content := "m", timestamp := "t" })]
      0 { message := "hi", session_id := some "s25" } "s25" (by decide)
      (List.replicate 25 { role := "user", content := "m", timestamp := "t" }) (by decide)
      "ok" (by decide) rfl).2.2.1,
   (chat_context_window defaultConfig (fun _ _ => .success "ok") (fun _ => "t") "fresh"
      [(storage_key defaultConfig "s25",
        List.replicate 25 { role := "user", content := "m", timestamp := "t" })]
      0 { message := "hi", session_id := some "s25" } "s25" (by decide)
      (List.replicate 25 { role := "user", content := "m", timestamp := "t" }) (by decide)
      "ok" (by decide) rfl).2.2.2.2⟩

/-- C6 counterexample: the claim "a session_id present in the request body
is used verbatim" fails at the concrete request
`{message: "hi", session_id: ""}`: the id is present, yet the handler
(Python `or` treats the empty string as falsy) generates and echoes the
fresh id instead of the supplied empty string. -/
theorem session_id_empty_present_not_verbatim :
    (some "" : Option String) ≠ none
    ∧ (chat defaultConfig (fun _ _ => .success "ok") (fun _ => "t") "generated-uuid" [] 0
        { message := "hi", session_id := some "" }).result
      = .ok { response := "ok", session_id := "generated-uuid" }
    ∧ (chat defaultConfig (fun _ _ => .success "ok") (fun _ => "t") "generated-uuid" [] 0
        { message := "hi", session_id := some "" }).result
      ≠ .ok { response := "ok", session_id := "" } := by
  refine ⟨by decide, ?_, ?_⟩ <;> decide

/-- C6 (amended): session-id resolution: a NON-EMPTY session_id supplied in
the request body is used verbatim — it keys the store and is echoed in the
response — while an absent (or empty, which Python `or` treats as absent)
session_id makes the handler use the freshly generated uuid and return
it. -/
theorem session_id_resolution (cfg : Config) (bedrock : BedrockOracle)
    (clock : Nat → String) (fresh_uuid : String) (st : Store) (i : Nat)
    (req : ChatRequest) (s resp : String)
    (hpresent : req.session_id = some s) (hne : s ≠ "")
    (hok : bedrock i (build_bedrock_messages (load_conversation cfg st s) req.message)
      = .success resp) :
    (chat cfg bedrock clock fresh_uuid st i req).result
      = .ok { response := resp, session_id := s }
    ∧ (chat cfg bedrock clock fresh_uuid st i req).store
        = save_conversation cfg s
            (load_conversation cfg st s
              ++ [{ role := "user", content := req.message, timestamp := clock 0 }]
              ++ [{ role := "assistant", content := resp, timestamp := clock 1 }]) st
    ∧ (∀ (req2 : ChatRequest) (resp2 : String), req2.session_id = none →
        bedrock i (build_bedrock_messages (load_conversation cfg st fresh_uuid)
          req2.message) = .success resp2 →
        (chat cfg bedrock clock fresh_uuid st i req2).result
          = .ok { response := resp2, session_id := fresh_uuid }) := by
  have hres : py_str_or req.session_id fresh_uuid = s := by
    rw [hpresent]
    simp [py_str_or, hne]
  refine ⟨?_, ?_, ?_⟩
  · rw [chat_of_success cfg bedrock clock fresh_uuid st i req resp (by rw [hres]; exact hok)]
    rw [hres]
  · rw [chat_of_success cfg bedrock clock fresh_uuid st i req resp (by rw [hres]; exact hok)]
    rw [hres]
  · intro req2 resp2 hnone hok2
    have hres2 : py_str_or req2.session_id fresh_uuid = fresh_uuid := by
      rw [hnone]; rfl
    rw [chat_of_success cfg bedrock clock fresh_uuid st i req2 resp2 (by rw [hres2]; exact hok2)]
    rw [hres2]

/-- Witness for the amended C6 at concrete inputs: the supplied non-empty
id `"s1"` is echoed, and a request without a session id echoes the
generated `"fresh"`. -/
theorem session_id_resolution_witness :
    (chat defaultConfig (fun _ _ => .success "ok") (fun _ => "t") "fresh" [] 0
        { message := "hi", session_id := some "s1" }).result
      = .ok { response := "ok", session_id := "s1" }
    ∧ (chat defaultConfig (fun _ _ => .success "ok") (fun _ => "t") "fresh" [] 0
        { message := "hi", session_id := none }).result
      = .ok { response := "ok", session_id := "fresh" } :=
  ⟨(session_id_resolution defaultConfig (fun _ _ => .success "ok") (fun _ => "t") "fresh"
      [] 0 { message := "hi", session_id := some "s1" } "s1" "ok" rfl (by decide) rfl).1,
   (session_id_resolution defaultConfig (fun _ _ => .success "ok") (fun _ => "t") "fresh"
      [] 0 { message := "hi", session_id := some "s1" } "s1" "ok" rfl (by decide) rfl).2.2
     { message := "hi", session_id := none } "ok" rfl rfl⟩

/-! ## String and path lemmas for session isolation -/

theorem str_append_right_cancel (a b t : String) (h : a ++ t = b ++ t) : a = b := by
  have hd := congrArg String.data h
  rw [String.data_append, String.data_append] at hd
  exact congrArg String.mk (List.append_cancel_right hd)

theorem get_memory_path_inj (s1 s2 : String)
    (h : get_memory_path s1 = get_memory_path s2) : s1 = s2 :=
  str_append_right_cancel s1 s2 ".json" h

theorem isAbs_append (a b : String) (ha : a ≠ "") :
    isAbsolutePath (a ++ b) = isAbsolutePath a := by
  unfold isAbsolutePath
  rw [String.data_append]
  cases hd : a.data with
  | nil => exact absurd (congrArg String.mk hd) ha
  | cons c cs => rfl

theorem append_slash_ne_empty (d : String) : d ++ "/" ≠ "" := by
  intro h
  have hd := congrArg String.data h
  rw [String.data_append] at hd
  exact absurd (List.append_eq_nil.mp hd).2 (by decide)

theorem splitSlash_ne_nil (l : List Char) : splitSlash l ≠ [] := by
  cases l with
  | nil => simp [splitSlash]
  | cons c rest =>
      simp only [splitSlash]
      split
      · simp
      · split <;> simp

theorem splitSlash_no_slash (l : List Char) (h : '/' ∉ l) : splitSlash l = [l] := by
  induction l with
  | nil => rfl
  | cons c rest ih =>
      have hc : c ≠ '/' := fun hc => h (hc ▸ List.mem_cons_self c rest)
      have hr : '/' ∉ rest := fun hm => h (List.mem_cons_of_mem c hm)
      simp only [splitSlash, if_neg (fun hh : c = '/' => hc hh)]
      rw [ih hr]

theorem splitSlash_cons_slash (rest : List Char) :
    splitSlash ('/' :: rest) = [] :: splitSlash rest := by
  simp [splitSlash]

theorem splitSlash_cons_ne (c : Char) (rest : List Char) (hc : c ≠ '/') :
    splitSlash (c :: rest)
      = match splitSlash rest with
        | [] => [[c]]
        | g :: gs => (c :: g) :: gs := by
  simp [splitSlash, hc]

theorem splitSlash_append (xs b : List Char) (hb : '/' ∉ b) :
    splitSlash (xs ++ '/' :: b) = splitSlash xs ++ [b] := by
  induction xs with
  | nil =>
      rw [List.nil_append, splitSlash_cons_slash, splitSlash_no_slash b hb]
      rfl
  | cons c xs ih =>
      rw [List.cons_append]
      by_cases hc : c = '/'
      · subst hc
        rw [splitSlash_cons_slash, splitSlash_cons_slash, ih]
        rfl
      · rw [splitSlash_cons_ne _ _ hc, splitSlash_cons_ne _ _ hc, ih]
        cases hx : splitSlash xs with
        | nil => exact absurd hx (splitSlash_ne_nil xs)
        | cons g gs => rfl

theorem normStep_plain (abs : Bool) (acc : List (List Char)) (b : List Char)
    (h5 : 5 ≤ b.length) : normStep abs acc b = acc ++ [b] := by
  unfold normStep
  rw [if_neg, if_neg]
  · intro hb; subst hb; simp at h5
  · rintro (hb | hb) <;> subst hb <;> simp at h5

theorem normComps_append_plain (abs : Bool) (groups : List (List Char)) (b : List Char)
    (h5 : 5 ≤ b.length) : normComps abs (groups ++ [b]) = normComps abs groups ++ [b] := by
  unfold normComps
  rw [List.foldl_append]
  exact normStep_plain abs _ b h5

theorem eq_dropLast_append_getLast : ∀ (l : List Char) (c : Char),
    l.getLast? = some c → l = l.dropLast ++ [c]
  | [], c, h => by simp at h
  | [a], c, h => by
      simp at h
      simp [h]
  | a :: b :: t, c, h => by
      have ih := eq_dropLast_append_getLast (b :: t) c (by simpa using h)
      calc a :: b :: t = a :: ((b :: t).dropLast ++ [c]) := by rw [← ih]
        _ = (a :: b :: t).dropLast ++ [c] := by simp

theorem isAbs_no_slash (s : String) (h : '/' ∉ s.data) : isAbsolutePath s = false := by
  unfold isAbsolutePath
  cases hd : s.data with
  | nil => rfl
  | cons c cs =>
      have hc : c ≠ '/' := fun hc => h (hd ▸ (hc ▸ List.mem_cons_self c cs))
      simp [hc]

theorem no_slash_memory_path (s : String) (h : '/' ∉ s.data) :
    '/' ∉ (get_memory_path s).data := by
  unfold get_memory_path
  rw [String.data_append]
  intro hm
  rcases List.mem_append.mp hm with h1 | h2
  · exact h h1
  · exact absurd h2 (by decide)

theorem memory_path_len (s : String) : 5 ≤ (get_memory_path s).data.length := by
  unfold get_memory_path
  rw [String.data_append]
  simp

theorem canonical_join_local (d : String) :
    ∃ F : List (List Char), ∀ s : String, '/' ∉ s.data →
      (canonicalPath (os_path_join d (get_memory_path s))).2
        = F ++ [(get_memory_path s).data] := by
  by_cases hd : d = ""
  · refine ⟨[], fun s hs => ?_⟩
    have hb := no_slash_memory_path s hs
    have habs := isAbs_no_slash _ hb
    unfold os_path_join joinNonAbs
    rw [habs]
    simp only [Bool.false_eq_true, if_false]
    rw [if_pos hd]
    unfold canonicalPath normComps
    rw [splitSlash_no_slash _ hb]
    simp only [List.foldl_cons, List.foldl_nil]
    rw [normStep_plain _ _ _ (memory_path_len s)]
  · by_cases hsep : endsWithSep d = true
    · have hlast : d.data.getLast? = some '/' := by
        unfold endsWithSep at hsep
        cases hL : d.data.getLast? with
        | none => rw [hL] at hsep; exact absurd hsep (by decide)
        | some c =>
            rw [hL] at hsep
            have hc : c = '/' := of_decide_eq_true hsep
            rw [hc]
      refine ⟨normComps (isAbsolutePath d) (splitSlash d.data.dropLast), fun s hs => ?_⟩
      have hb := no_slash_memory_path s hs
      have habs := isAbs_no_slash _ hb
      unfold os_path_join joinNonAbs
      rw [habs]
      simp only [Bool.false_eq_true, if_false]
      rw [if_neg hd, if_pos hsep]
      unfold canonicalPath
      rw [isAbs_append d _ hd]
      have hdata : (d ++ get_memory_path s).data
          = d.data.dropLast ++ '/' :: (get_memory_path s).data := by
        rw [String.data_append]
        conv_lhs => rw [eq_dropLast_append_getLast d.data '/' hlast]
        simp
      rw [hdata, splitSlash_append _ _ hb, normComps_append_plain _ _ _ (memory_path_len s)]
    · refine ⟨normComps (isAbsolutePath d) (splitSlash d.data), fun s hs => ?_⟩
      have hb := no_slash_memory_path s hs
      have habs := isAbs_no_slash _ hb
      unfold os_path_join joinNonAbs
      rw [habs]
      simp only [Bool.false_eq_true, if_false]
      rw [if_neg hd, if_neg hsep]
      unfold canonicalPath
      rw [isAbs_append (d ++ "/") _ (append_slash_ne_empty d), isAbs_append d "/" hd]
      have hdata : (d ++ "/" ++ get_memory_path s).data
          = d.data ++ '/' :: (get_memory_path s).data := by
        rw [String.data_append, String.data_append]
        simp
      rw [hdata, splitSlash_append _ _ hb, normComps_append_plain _ _ _ (memory_path_len s)]

theorem same_file_storage_false (cfg : Config) (s1 s2 : String) (hne : s1 ≠ s2)
    (hsafe : cfg.USE_S3 = true ∨ ('/' ∉ s1.data ∧ '/' ∉ s2.data)) :
    same_file cfg (storage_key cfg s1) (storage_key cfg s2) = false := by
  unfold same_file storage_key
  cases hS3 : cfg.USE_S3 with
  | true =>
      rw [if_pos rfl, if_pos rfl, if_pos rfl]
      apply decide_eq_false
      intro hk
      exact hne (get_memory_path_inj s1 s2 hk)
  | false =>
      rw [if_neg (by decide), if_neg (by decide), if_neg (by decide)]
      rcases hsafe with hT | ⟨h1, h2⟩
      · rw [hS3] at hT
        exact Bool.noConfusion hT
      · apply decide_eq_false
        intro hk
        obtain ⟨F, hF⟩ := canonical_join_local cfg.MEMORY_DIR
        have hc := congrArg Prod.snd hk
        rw [hF s1 h1, hF s2 h2] at hc
        have hb := List.append_cancel_left hc
        have hbd : (get_memory_path s1).data = (get_memory_path s2).data := by
          injection hb
        exact hne (get_memory_path_inj s1 s2 (congrArg String.mk hbd))

/-- C8 counterexample: as stated — for EVERY pair of distinct session ids —
the claim fails on the code, which splices session ids into
`os.path.join(MEMORY_DIR, f"{sid}.json")` unsanitized. Two concrete
violations: with the local root `"/m"`, the distinct ids `"/m/x"` and `"x"`
resolve to the same file `"/m/x.json"` (`os.path.join` discards the root
before an absolute second component); and under the DEFAULT root, the
distinct ids `"./x"` and `"x"` yield the paths `"../memory/./x.json"` and
`"../memory/x.json"`, which POSIX resolution makes the same file. In both
cases a save for the first id changes the stored log of the second from
empty to the saved messages. -/
theorem session_isolation_counterexample :
    (("/m/x" : String) ≠ "x"
     ∧ load_conversation { USE_S3 := false, S3_BUCKET := "", MEMORY_DIR := "/m" }
         (save_conversation { USE_S3 := false, S3_BUCKET := "", MEMORY_DIR := "/m" }
           "/m/x" [{ role := "user", content := "hi", timestamp := "t" }] []) "x"
       = [{ role := "user", content := "hi", timestamp := "t" }]
     ∧ load_conversation { USE_S3 := false, S3_BUCKET := "", MEMORY_DIR := "/m" } [] "x"
       = [])
    ∧ (("./x" : String) ≠ "x"
       ∧ load_conversation defaultConfig
           (save_conversation defaultConfig
             "./x" [{ role := "user", content := "hi", timestamp := "t" }] []) "x"
         = [{ role := "user", content := "hi", timestamp := "t" }]
       ∧ load_conversation defaultConfig [] "x" = []) := by decide

/-- C8 (amended): session isolation: distinct session ids never interfere —
a save (or a whole chat turn) for s1 leaves the stored log of s2
unchanged — provided the backend is S3 (whose object keys are used
verbatim), or neither session id contains the character `'/'` (ids
embedding path separators can alias one file through `os.path.join` and
POSIX path resolution). -/
theorem session_isolation (cfg : Config) (s1 s2 : String) (hne : s1 ≠ s2)
    (hsafe : cfg.USE_S3 = true ∨ ('/' ∉ s1.data ∧ '/' ∉ s2.data)) :
    (∀ (messages : List Message) (st : Store),
        load_conversation cfg (save_conversation cfg s1 messages st) s2
          = load_conversation cfg st s2)
    ∧ (∀ (bedrock : BedrockOracle) (clock : Nat → String) (fresh_uuid : String)
        (st : Store) (i : Nat) (req : ChatRequest),
        py_str_or req.session_id fresh_uuid = s1 →
        load_conversation cfg (chat cfg bedrock clock fresh_uuid st i req).store s2
          = load_conversation cfg st s2) := by
  have hk := same_file_storage_false cfg s1 s2 hne hsafe
  have hsave : ∀ (messages : List Message) (st : Store),
      load_conversation cfg (save_conversation cfg s1 messages st) s2
        = load_conversation cfg st s2 := by
    intro messages st
    unfold load_conversation save_conversation
    rw [fsRead_fsWrite_other cfg st _ _ messages hk]
  refine ⟨hsave, ?_⟩
  intro bedrock clock fresh_uuid st i req hres
  cases hb : bedrock i (build_bedrock_messages
      (load_conversation cfg st (py_str_or req.session_id fresh_uuid)) req.message) with
  | success resp =>
      rw [chat_of_success cfg bedrock clock fresh_uuid st i req resp hb]
      rw [hres]
      exact hsave _ st
  | clientError code msg =>
      rw [chat_of_client_error cfg bedrock clock fresh_uuid st i req code msg hb]

/-- Witness for the amended C8 at a concrete input: under the default
configuration, for the slash-free distinct ids `"a"` and `"b"`, a save for
`"a"` leaves `"b"`'s log empty. -/
theorem session_isolation_witness :
    load_conversation defaultConfig
        (save_conversation defaultConfig "a"
          [{ role := "user", content := "hi", timestamp := "t" }] []) "b"
      = [] :=
  ((session_isolation defaultConfig "a" "b" (by decide)
      (Or.inr ⟨by decide, by decide⟩)).1
    [{ role := "user", content := "hi", timestamp := "t" }] []).trans rfl

end DigitalTwin
